import Mathlib

/-!
Verification of the decoded-METAR parser of the `weather_noaa` repository
(`src/weathernoaa/src/weather.rs`).

The Rust code is a chain of nom combinators over `&str`.  We embed it
shallowly: the input is a `List Char`, and a parser is a function
`List Char → Option (List Char × α)` (nom's `IResult` with the error
detail collapsed, since no claim inspects error payloads beyond
`Station::try_from`'s message).  All the parsers used by the code are
of nom's `complete` flavour, so `take_till` never suspends and always
succeeds.

`f64` values are modelled exactly: a parsed decimal string is kept as an
exact rational (`F64V.num`), represented canonically by a reduced
numerator/denominator pair (`Q`), with dedicated constructors for the
`inf` / `infinity` / `nan` spellings Rust's `f64::from_str` also
accepts.  The claims under verification only ever compare values that
are exactly representable (small integers), so the rounding a real
`f64` would perform is immaterial to every statement below.

Rust's `char::is_whitespace` is modelled by `Char.isWhitespace`; the two
agree on all characters appearing in any claim (ASCII space, tab,
newline, carriage return).
-/

/-- Input fragments, i.e. Rust `&str` slices, as character lists. -/
abbrev Str := List Char

/-- Shorthand turning a string literal into a character list. -/
def S (s : String) : Str := s.toList

/-- A nom parser: returns `some (remainder, value)` on success. -/
abbrev P (α : Type) := Str → Option (Str × α)

/-- Sequencing of parsers: the Rust `let (i, x) = p(i)?;` idiom. -/
def pbind {α β : Type} (p : P α) (f : α → P β) : P β := fun i =>
  match p i with
  | none => none
  | some (i2, a) => f a i2

/-- A parser that consumes nothing and returns `a` (the final `Ok((i, v))`). -/
def ppure {α : Type} (a : α) : P α := fun i => some (i, a)

/-- nom `bytes::complete::tag`: match a literal prefix, return it. -/
def tag (t : Str) : P Str := fun i =>
  if t.isPrefixOf i then some (i.drop t.length, t) else none

/-- ASCII lowercasing, the case folding `tag_no_case` performs on the
ASCII-only tags this code uses. -/
def lowerA (c : Char) : Char :=
  if 'A' ≤ c ∧ c ≤ 'Z' then Char.ofNat (c.toNat + 32) else c

/-- nom `bytes::complete::tag_no_case`: case-insensitive literal prefix;
returns the matched slice of the *input* (original case). -/
def tagNoCase (t : Str) : P Str := fun i =>
  if t.length ≤ i.length ∧ (i.take t.length).map lowerA = t.map lowerA then
    some (i.drop t.length, i.take t.length)
  else none

/-- nom `bytes::complete::take_till`: longest prefix of characters on
which `p` is false; never fails (complete version). -/
def takeTill (p : Char → Bool) : P Str := fun i =>
  some (i.dropWhile (fun c => !(p c)), i.takeWhile (fun c => !(p c)))

/-- nom `character::complete::char`. -/
def pchar (c : Char) : P Char := fun i =>
  match i with
  | [] => none
  | x :: xs => if x = c then some (xs, c) else none

/-- nom `character::complete::newline`. -/
def newline : P Char := pchar '\n'

/-- nom's space characters for `space1`: space and tab. -/
def nomSpace (c : Char) : Bool := c = ' ' || c = '\t'

/-- nom `character::complete::space1`: one or more spaces/tabs. -/
def space1 : P Str := fun i =>
  let s := i.takeWhile nomSpace
  if s.isEmpty then none else some (i.dropWhile nomSpace, s)

/-- The Rust helper `spaces` (just `space1`). -/
def spaces : P Str := space1

/-- nom `combinator::opt`. -/
def popt {α : Type} (p : P α) : P (Option α) := fun i =>
  match p i with
  | none => some (i, none)
  | some (i2, a) => some (i2, some a)

/-- nom `branch::alt` over two alternatives. -/
def alt2 {α : Type} (p q : P α) : P α := fun i =>
  match p i with
  | some r => some r
  | none => q i

/-- nom `branch::alt` over three alternatives. -/
def alt3 {α : Type} (p q r : P α) : P α := fun i =>
  match p i with
  | some res => some res
  | none => alt2 q r i

/-- nom `combinator::map_res` with the fallible map collapsed to `Option`. -/
def mapRes {α β : Type} (p : P α) (f : α → Option β) : P β := fun i =>
  match p i with
  | none => none
  | some (i2, a) =>
    match f a with
    | none => none
    | some b => some (i2, b)

/-- Fueled body of nom `multi::many0 (tag t)`.  The fuel is an upper
bound on the number of repetitions; `tag t` with a nonempty `t` consumes
at least one character per repetition, so fuel `i.length + 1` is always
enough. -/
def many0TagFuel (t : Str) : Nat → P (List Str)
  | 0 => fun i => some (i, [])
  | n + 1 => fun i =>
    match tag t i with
    | none => some (i, [])
    | some (i2, m) =>
      match many0TagFuel t n i2 with
      | none => some (i2, [m])
      | some (i3, ms) => some (i3, m :: ms)

/-- nom `multi::many0 (tag t)`. -/
def many0Tag (t : Str) : P (List Str) := fun i => many0TagFuel t (i.length + 1) i

/-- nom `multi::many1 (tag t)`: one match, then `many0`. -/
def many1Tag (t : Str) : P (List Str) :=
  pbind (tag t) fun x =>
  pbind (many0Tag t) fun xs =>
  ppure (x :: xs)

/-! ## Numeric parsing (Rust `str::parse` via `FromStr`) -/

/-- Numeric value of a digit list, most significant first. -/
def digitsVal (l : Str) : Nat := l.foldl (fun a c => a * 10 + (c.toNat - 48)) 0

/-- All characters are ASCII digits and there is at least one. -/
def allDigits1 (l : Str) : Bool := !l.isEmpty && l.all Char.isDigit

/-- Rust `u16::from_str` / `u8::from_str`: optional `+`, then one or
more digits, value within range (overflow during accumulation in Rust
is equivalent to a final range check because every digit only grows the
value). -/
def parseUnsigned (bound : Nat) (l : Str) : Option Nat :=
  let l2 := match l with
            | '+' :: xs => xs
            | xs => xs
  if allDigits1 l2 && digitsVal l2 < bound then some (digitsVal l2) else none

def parseU16 (l : Str) : Option Nat := parseUnsigned 65536 l

def parseU8 (l : Str) : Option Nat := parseUnsigned 256 l

/-- Rust `i16::from_str`: optional sign, digits, range check. -/
def parseI16 (l : Str) : Option Int :=
  match l with
  | '-' :: xs =>
    if allDigits1 xs && digitsVal xs ≤ 32768 then some (-(digitsVal xs : Int)) else none
  | '+' :: xs =>
    if allDigits1 xs && digitsVal xs ≤ 32767 then some ((digitsVal xs : Int)) else none
  | xs =>
    if allDigits1 xs && digitsVal xs ≤ 32767 then some ((digitsVal xs : Int)) else none

/-- Fuel-driven Euclid; fuel `a + 1` always suffices since the first
argument strictly decreases. -/
def gcdFuel : Nat → Nat → Nat → Nat
  | 0, _, b => b
  | _ + 1, 0, b => b
  | f + 1, a, b => gcdFuel f (b % a) a

/-- Greatest common divisor, implemented structurally so that concrete
computations reduce definitionally. -/
def sgcd (a b : Nat) : Nat := gcdFuel (a + 1) a b

/-- An exact rational in canonical (reduced) form: every `Q` built below
comes out of `Q.scaled`, which divides out the gcd, so equality of `Q`
values is equality of the rationals they denote. -/
structure Q where
  num : Int
  den : Nat
  deriving DecidableEq, Repr

/-- The integer rational `n/1`. -/
def qn (n : Int) : Q := { num := n, den := 1 }

/-- `n / d` in lowest terms (`d` is always a positive power of ten here). -/
def Q.norm (n : Int) (d : Nat) : Q :=
  let g := sgcd n.natAbs d
  if g = 0 then { num := n, den := d }
  else { num := n / (g : Int), den := d / g }

/-- The exact value `sgn * mant * 10 ^ (e - f)` of a decimal literal with
integer mantissa `mant`, `f` fractional digits and exponent `e`. -/
def Q.scaled (sgn : Int) (mant : Nat) (e : Int) (f : Nat) : Q :=
  let k : Int := e - (f : Int)
  if 0 ≤ k then qn (sgn * (mant : Int) * ((10 : Int) ^ k.toNat))
  else Q.norm (sgn * (mant : Int)) ((10 : Nat) ^ ((-k).toNat))

/-- The value space of Rust `f64` as produced by `f64::from_str`:
finite values kept exactly as rationals, plus the infinities and NaN. -/
inductive F64V : Type
  | num (q : Q)
  | inf
  | neginf
  | nan
  deriving DecidableEq, Repr

/-- Optional exponent suffix of a float literal: empty, or
`e`/`E` then an optional sign and one or more digits. -/
def parseExpOpt (l : Str) : Option Int :=
  match l with
  | [] => some 0
  | 'e' :: rest =>
    match rest with
    | '-' :: ds => if allDigits1 ds then some (-(digitsVal ds : Int)) else none
    | '+' :: ds => if allDigits1 ds then some ((digitsVal ds : Int)) else none
    | ds => if allDigits1 ds then some ((digitsVal ds : Int)) else none
  | 'E' :: rest =>
    match rest with
    | '-' :: ds => if allDigits1 ds then some (-(digitsVal ds : Int)) else none
    | '+' :: ds => if allDigits1 ds then some ((digitsVal ds : Int)) else none
    | ds => if allDigits1 ds then some ((digitsVal ds : Int)) else none
  | _ => none

/-- Mantissa and trailing exponent: `D+ ('.' D*)? Exp?` or `'.' D+ Exp?`
with at least one digit overall, valued exactly as a rational. -/
def parseDecBody (sgn : Int) (r : Str) : Option F64V :=
  let d1 := r.takeWhile Char.isDigit
  let r1 := r.dropWhile Char.isDigit
  match r1 with
  | '.' :: r2 =>
    let d2 := r2.takeWhile Char.isDigit
    let r3 := r2.dropWhile Char.isDigit
    if d1.isEmpty && d2.isEmpty then none
    else
      match parseExpOpt r3 with
      | some e => some (F64V.num (Q.scaled sgn (digitsVal (d1 ++ d2)) e d2.length))
      | none => none
  | _ =>
    if d1.isEmpty then none
    else
      match parseExpOpt r1 with
      | some e => some (F64V.num (Q.scaled sgn (digitsVal d1) e 0))
      | none => none

/-- Rust `f64::from_str`: optional sign, then `inf`/`infinity`/`nan`
(case-insensitive) or a decimal literal. -/
def parseF64 (l : Str) : Option F64V :=
  let (sgn, r) : Int × Str :=
    match l with
    | '+' :: xs => (1, xs)
    | '-' :: xs => (-1, xs)
    | xs => (1, xs)
  if r.map lowerA = S ("inf") ∨ r.map lowerA = S ("infinity") then
    some (if sgn = 1 then F64V.inf else F64V.neginf)
  else if r.map lowerA = S ("nan") then
    some F64V.nan
  else
    parseDecBody sgn r

/-! ## Data model (`weather.rs` structs) -/

/-- `Station` struct. -/
structure Station where
  place : Str
  country : Str
  deriving DecidableEq, Repr

/-- `WeatherTime` struct (`year: u16`, `month: u8`, `day: u8`). -/
structure WeatherTime where
  year : Nat
  month : Nat
  day : Nat
  time : Str
  deriving DecidableEq, Repr

/-- `WindInfo` struct. -/
structure WindInfo where
  cardinal : Str
  azimuth : F64V
  mph : F64V
  knots : F64V
  deriving DecidableEq, Repr

/-- `Temperature` struct. -/
structure Temperature where
  celsius : F64V
  fahrenheit : F64V
  deriving DecidableEq, Repr

/-- `WeatherInfo` struct, field for field. -/
structure WeatherInfo where
  station : Option Station
  weather_time : WeatherTime
  wind : WindInfo
  visibility : Str
  sky_condition : Option Str
  weather : Option Str
  temperature : Temperature
  dewpoint : Temperature
  relative_humidity : F64V
  pressure : Int
  deriving DecidableEq, Repr

/-- `impl Default for WindInfo`: the sentinel cardinal is the literal
string `"μ"`, not the empty string. -/
def WindInfo.default : WindInfo :=
  { cardinal := S ("μ"), azimuth := F64V.num (qn 0), mph := F64V.num (qn 0),
    knots := F64V.num (qn 0) }

/-! ## `Station::try_from` -/

/-- Rust `str::split(sep)` as a total function on character lists:
always returns at least one (possibly empty) segment. -/
def splitChar (sep : Char) : Str → List Str
  | [] => [[]]
  | c :: cs =>
    if c = sep then [] :: splitChar sep cs
    else
      match splitChar sep cs with
      | [] => [[c]]
      | p :: ps => (c :: p) :: ps

/-- Rust whitespace predicate used by `str::trim` and
`char::is_whitespace` (agrees with Rust on every character any claim
mentions). -/
def wsp (c : Char) : Bool := c.isWhitespace

/-- Rust `str::trim`: strip leading and trailing whitespace. -/
def trimChar (l : Str) : Str :=
  ((l.dropWhile wsp).reverse.dropWhile wsp).reverse

/-- The body of `Station::try_from`'s country post-processing: Rust
`country.split('(')` always has a first segment `c`, so the `if let`
always fires and the country is the text before the first `(`, trimmed. -/
def countryOf (s2 : Str) : Str :=
  match splitChar '(' s2 with
  | c :: _ => trimChar c
  | [] => s2

/-- `impl TryFrom<&str> for Station`: requires exactly two
comma-separated segments. -/
def Station.tryFrom (i : Str) : Except Str Station :=
  match splitChar ',' i with
  | [s1, s2] => Except.ok { place := s1, country := countryOf s2 }
  | _ => Except.error (S ("Failure parsing ") ++ i)

/-! ## Field parsers -/

/-- `parse_weather_str`. -/
def parse_weather_str : P (Option Str) :=
  pbind (many0Tag (S ("Weather: "))) fun k =>
  if k.isEmpty then ppure none
  else
    pbind (takeTill (fun c => c = '\n')) fun weather =>
    pbind newline fun _ =>
    ppure (some weather)

/-- `parse_pressure`. -/
def parse_pressure : P Int :=
  pbind (tag (S ("Pressure (altimeter): "))) fun _ =>
  pbind (takeTill (fun c => c = '(')) fun _ =>
  pbind (pchar '(') fun _ =>
  pbind (mapRes (takeTill wsp) parseI16) fun pressure =>
  pbind (takeTill (fun c => c = '\n')) fun _ =>
  ppure pressure

/-- `calm_parser` inside `parse_windinfo`. -/
def calmBranch : P WindInfo :=
  pbind (many1Tag (S ("Wind: Calm:0"))) fun _ =>
  ppure WindInfo.default

/-- `wind_from_parser` inside `parse_windinfo`. -/
def windFromBranch : P WindInfo :=
  pbind (tag (S ("Wind: from the "))) fun _ =>
  pbind (takeTill wsp) fun cardinal =>
  pbind spaces fun _ =>
  pbind (pchar '(') fun _ =>
  pbind (mapRes (takeTill wsp) parseF64) fun azimuth =>
  pbind (tag (S (" degrees) at "))) fun _ =>
  pbind (mapRes (takeTill wsp) parseF64) fun mph =>
  pbind (tag (S (" MPH ("))) fun _ =>
  pbind (mapRes (takeTill wsp) parseF64) fun knots =>
  pbind (takeTill (fun c => c = '\n')) fun _ =>
  ppure { cardinal := cardinal, azimuth := azimuth, mph := mph, knots := knots }

/-- `wind_var_parser` inside `parse_windinfo`. -/
def windVarBranch : P WindInfo :=
  pbind (tag (S ("Wind: Variable at "))) fun _ =>
  pbind (mapRes (takeTill wsp) parseF64) fun mph =>
  pbind (tag (S (" MPH ("))) fun _ =>
  pbind (mapRes (takeTill wsp) parseF64) fun knots =>
  pbind (takeTill (fun c => c = '\n')) fun _ =>
  ppure { WindInfo.default with mph := mph, knots := knots }

/-- `parse_windinfo`. -/
def parse_windinfo : P WindInfo := alt3 calmBranch windFromBranch windVarBranch

/-- `parse_sky_condition`. -/
def parse_sky_condition : P (Option Str) :=
  pbind (popt (tag (S ("Sky conditions: ")))) fun skyTag =>
  if skyTag.isSome then
    pbind (takeTill (fun c => c = '\n')) fun sky =>
    pbind newline fun _ =>
    ppure (some sky)
  else ppure none

/-- `parse_relative_humidity`. -/
def parse_relative_humidity : P F64V :=
  pbind (tag (S ("Relative Humidity: "))) fun _ =>
  pbind (mapRes (takeTill (fun c => c = '%')) parseF64) fun humidity =>
  pbind (pchar '%') fun _ =>
  pbind newline fun _ =>
  ppure humidity

/-- `parse_station`. -/
def parse_station : P (Option Station) := fun i =>
  match alt2 (tagNoCase (S ("Station name not available"))) (takeTill (fun c => c = '\n')) i with
  | some (input, output) =>
    match Station.tryFrom output with
    | Except.ok stat => some (input, some stat)
    | Except.error _ => some (input, none)
  | none => none

/-- `parse_temperature`. -/
def parse_temperature : P Temperature :=
  pbind spaces fun _ =>
  pbind (mapRes (takeTill wsp) parseF64) fun fahrenheit =>
  pbind (tag (S (" F ("))) fun _ =>
  pbind (mapRes (takeTill wsp) parseF64) fun celsius =>
  pbind (takeTill (fun c => c = '\n')) fun _ =>
  ppure { celsius := celsius, fahrenheit := fahrenheit }

/-- The tail of `parse_time` after the `'/'` has been consumed. -/
def parse_time_tail : P WeatherTime :=
  pbind (pchar ' ') fun _ =>
  pbind (mapRes (takeTill (fun c => c = '.')) parseU16) fun y =>
  pbind (pchar '.') fun _ =>
  pbind (mapRes (takeTill (fun c => c = '.')) parseU8) fun m =>
  pbind (pchar '.') fun _ =>
  pbind (mapRes (takeTill (fun c => c = ' ')) parseU8) fun d =>
  pbind (pchar ' ') fun _ =>
  pbind (takeTill (fun c => c = '\n')) fun time =>
  ppure { year := y, month := m, day := d, time := time }

/-- `parse_time` (the `context` combinator only decorates errors and is
dropped). -/
def parse_time : P WeatherTime :=
  pbind (takeTill (fun c => c = '/')) fun _ =>
  pbind (pchar '/') fun _ =>
  parse_time_tail

/-- `parse_weather`: the orchestrator, field for field in source order. -/
def parse_weather : P WeatherInfo :=
  pbind parse_station fun station =>
  pbind newline fun _ =>
  pbind parse_time fun weather_time =>
  pbind newline fun _ =>
  pbind parse_windinfo fun wind =>
  pbind newline fun _ =>
  pbind (tag (S ("Visibility: "))) fun _ =>
  pbind (takeTill (fun c => c = '\n')) fun visibility =>
  pbind newline fun _ =>
  pbind parse_sky_condition fun sky_condition =>
  pbind parse_weather_str fun weather =>
  pbind (tag (S ("Temperature:"))) fun _ =>
  pbind parse_temperature fun temperature =>
  pbind newline fun _ =>
  pbind (tag (S ("Dew Point:"))) fun _ =>
  pbind parse_temperature fun dewpoint =>
  pbind newline fun _ =>
  pbind parse_relative_humidity fun relative_humidity =>
  pbind parse_pressure fun pressure =>
  ppure { station := station, weather_time := weather_time, wind := wind,
          visibility := visibility, sky_condition := sky_condition,
          weather := weather, temperature := temperature, dewpoint := dewpoint,
          relative_humidity := relative_humidity, pressure := pressure }

/-! ## Stage decompositions of the orchestrator

Each `stagesBefore…` function is the literal prefix of `parse_weather`'s
combinator chain up to (but not including) the named parser, returning
the values accumulated so far; `stagesFromTemperature` is the literal
tail of the chain from the `"Temperature:"` tag on.  They are used to
state how a sub-parser's behaviour at its position determines the whole
parse. -/

/-- `parse_weather` up to (not including) `parse_windinfo`. -/
def stagesBeforeWind : P (Option Station × WeatherTime) :=
  pbind parse_station fun station =>
  pbind newline fun _ =>
  pbind parse_time fun weather_time =>
  pbind newline fun _ =>
  ppure (station, weather_time)

/-- `parse_weather` up to (not including) `parse_sky_condition`. -/
def stagesBeforeSky : P (Option Station × WeatherTime × WindInfo × Str) :=
  pbind parse_station fun station =>
  pbind newline fun _ =>
  pbind parse_time fun weather_time =>
  pbind newline fun _ =>
  pbind parse_windinfo fun wind =>
  pbind newline fun _ =>
  pbind (tag (S ("Visibility: "))) fun _ =>
  pbind (takeTill (fun c => c = '\n')) fun visibility =>
  pbind newline fun _ =>
  ppure (station, weather_time, wind, visibility)

/-- `parse_weather` up to (not including) the first `parse_temperature`. -/
def stagesBeforeTemperature :
    P (Option Station × WeatherTime × WindInfo × Str × Option Str × Option Str) :=
  pbind parse_station fun station =>
  pbind newline fun _ =>
  pbind parse_time fun weather_time =>
  pbind newline fun _ =>
  pbind parse_windinfo fun wind =>
  pbind newline fun _ =>
  pbind (tag (S ("Visibility: "))) fun _ =>
  pbind (takeTill (fun c => c = '\n')) fun visibility =>
  pbind newline fun _ =>
  pbind parse_sky_condition fun sky_condition =>
  pbind parse_weather_str fun weather =>
  pbind (tag (S ("Temperature:"))) fun _ =>
  ppure (station, weather_time, wind, visibility, sky_condition, weather)

/-- `parse_weather` up to (not including) the dew-point `parse_temperature`. -/
def stagesBeforeDewpoint :
    P (Option Station × WeatherTime × WindInfo × Str × Option Str × Option Str × Temperature) :=
  pbind parse_station fun station =>
  pbind newline fun _ =>
  pbind parse_time fun weather_time =>
  pbind newline fun _ =>
  pbind parse_windinfo fun wind =>
  pbind newline fun _ =>
  pbind (tag (S ("Visibility: "))) fun _ =>
  pbind (takeTill (fun c => c = '\n')) fun visibility =>
  pbind newline fun _ =>
  pbind parse_sky_condition fun sky_condition =>
  pbind parse_weather_str fun weather =>
  pbind (tag (S ("Temperature:"))) fun _ =>
  pbind parse_temperature fun temperature =>
  pbind newline fun _ =>
  pbind (tag (S ("Dew Point:"))) fun _ =>
  ppure (station, weather_time, wind, visibility, sky_condition, weather, temperature)

/-- `parse_weather` up to (not including) `parse_relative_humidity`. -/
def stagesBeforeHumidity :
    P (Option Station × WeatherTime × WindInfo × Str × Option Str × Option Str ×
       Temperature × Temperature) :=
  pbind parse_station fun station =>
  pbind newline fun _ =>
  pbind parse_time fun weather_time =>
  pbind newline fun _ =>
  pbind parse_windinfo fun wind =>
  pbind newline fun _ =>
  pbind (tag (S ("Visibility: "))) fun _ =>
  pbind (takeTill (fun c => c = '\n')) fun visibility =>
  pbind newline fun _ =>
  pbind parse_sky_condition fun sky_condition =>
  pbind parse_weather_str fun weather =>
  pbind (tag (S ("Temperature:"))) fun _ =>
  pbind parse_temperature fun temperature =>
  pbind newline fun _ =>
  pbind (tag (S ("Dew Point:"))) fun _ =>
  pbind parse_temperature fun dewpoint =>
  pbind newline fun _ =>
  ppure (station, weather_time, wind, visibility, sky_condition, weather,
         temperature, dewpoint)

/-- `parse_weather` up to (not including) `parse_pressure`. -/
def stagesBeforePressure :
    P (Option Station × WeatherTime × WindInfo × Str × Option Str × Option Str ×
       Temperature × Temperature × F64V) :=
  pbind parse_station fun station =>
  pbind newline fun _ =>
  pbind parse_time fun weather_time =>
  pbind newline fun _ =>
  pbind parse_windinfo fun wind =>
  pbind newline fun _ =>
  pbind (tag (S ("Visibility: "))) fun _ =>
  pbind (takeTill (fun c => c = '\n')) fun visibility =>
  pbind newline fun _ =>
  pbind parse_sky_condition fun sky_condition =>
  pbind parse_weather_str fun weather =>
  pbind (tag (S ("Temperature:"))) fun _ =>
  pbind parse_temperature fun temperature =>
  pbind newline fun _ =>
  pbind (tag (S ("Dew Point:"))) fun _ =>
  pbind parse_temperature fun dewpoint =>
  pbind newline fun _ =>
  pbind parse_relative_humidity fun relative_humidity =>
  ppure (station, weather_time, wind, visibility, sky_condition, weather,
         temperature, dewpoint, relative_humidity)

/-- The literal tail of `parse_weather` from the `"Temperature:"` tag on. -/
def stagesFromTemperature : P (Temperature × Temperature × F64V × Int) :=
  pbind (tag (S ("Temperature:"))) fun _ =>
  pbind parse_temperature fun temperature =>
  pbind newline fun _ =>
  pbind (tag (S ("Dew Point:"))) fun _ =>
  pbind parse_temperature fun dewpoint =>
  pbind newline fun _ =>
  pbind parse_relative_humidity fun relative_humidity =>
  pbind parse_pressure fun pressure =>
  ppure (temperature, dewpoint, relative_humidity, pressure)

/-! ## Example documents (taken from the repository's own tests) -/

/-- The VOBL report of the test suite: well-formed, no `Weather:` line,
followed by the trailing text `"\nextra"`. -/
def voblReport : Str := S ("Station name not available\nMay 16, 2021 - 06:30 AM EDT / 2021.05.16 1030 UTC\nWind: from the SSW (200 degrees) at 12 MPH (10 KT) (direction variable):0\nVisibility: 4 mile(s):0\nSky conditions: partly cloudy\nTemperature: 80 F (27 C)\nDew Point: 66 F (19 C)\nRelative Humidity: 61%\nPressure (altimeter): 29.80 in. Hg (1009 hPa)\nextra")

/-- The record `parse_weather` produces for `voblReport`. -/
def voblInfo : WeatherInfo :=
  { station := none,
    weather_time := { year := 2021, month := 5, day := 16, time := S ("1030 UTC") },
    wind := { cardinal := S ("SSW"), azimuth := F64V.num (qn 200),
              mph := F64V.num (qn 12), knots := F64V.num (qn 10) },
    visibility := S ("4 mile(s):0"),
    sky_condition := some (S ("partly cloudy")),
    weather := none,
    temperature := { celsius := F64V.num (qn 27), fahrenheit := F64V.num (qn 80) },
    dewpoint := { celsius := F64V.num (qn 19), fahrenheit := F64V.num (qn 66) },
    relative_humidity := F64V.num (qn 61),
    pressure := 1009 }

/-- The VOGO report of the test suite: both the `Sky conditions:` and
the `Weather:` line are absent; a coded trailer follows. -/
def vogoReport : Str := S ("Station name not available\nDec 30, 2023 - 07:30 AM EST / 2023.12.30 1230 UTC\nWind: from the NNW (340 degrees) at 7 MPH (6 KT):0\nVisibility: 3 mile(s):0\nTemperature: 84 F (29 C)\nDew Point: 71 F (22 C)\nRelative Humidity: 65%\nPressure (altimeter): 29.83 in. Hg (1010 hPa)\nob: VOGO 301230Z 34006KT 6000 NSC 29/22 Q1010 NOSIG\ncycle: 12")

/-- A report whose wind line matches none of the three known shapes. -/
def badWindReport : Str := S ("Station name not available\nMay 16, 2021 - 06:30 AM EDT / 2021.05.16 1030 UTC\nWind: unexpected\nVisibility: 4 mile(s):0\nTemperature: 80 F (27 C)\nDew Point: 66 F (19 C)\nRelative Humidity: 61%\nPressure (altimeter): 29.80 in. Hg (1009 hPa)")

/-- A report whose parenthesized pressure value is not numeric. -/
def badPressureReport : Str := S ("Station name not available\nMay 16, 2021 - 06:30 AM EDT / 2021.05.16 1030 UTC\nWind: Calm:0\nVisibility: 4 mile(s):0\nTemperature: 80 F (27 C)\nDew Point: 66 F (19 C)\nRelative Humidity: 61%\nPressure (altimeter): 29.80 in. Hg (abcd hPa)")

/-- A report whose relative-humidity value is not numeric. -/
def badHumidityReport : Str := S ("Station name not available\nMay 16, 2021 - 06:30 AM EDT / 2021.05.16 1030 UTC\nWind: Calm:0\nVisibility: 4 mile(s):0\nTemperature: 80 F (27 C)\nDew Point: 66 F (19 C)\nRelative Humidity: abc%\nPressure (altimeter): 29.80 in. Hg (1009 hPa)")

/-- The Yakima header line of the test suite: its place name itself
contains a comma, so the header holds two commas. -/
def yakimaLine : Str := S ("YAKIMA AIR TERMINAL, WA, United States (KYKM) 46-34N 120-32W 324M")

/-- A parser whose returned remainder is always a suffix of its input,
byte for byte. -/
def suffixStable {α : Type} (p : P α) : Prop :=
  ∀ i r a, p i = some (r, a) → r <:+ i

/-! ## Combinator lemmas -/

theorem pbind_none {α β : Type} {p : P α} {f : α → P β} {i : Str}
    (h : p i = none) : pbind p f i = none := by
  simp [pbind, h]

theorem pbind_some {α β : Type} {p : P α} {f : α → P β} {i i2 : Str} {a : α}
    (h : p i = some (i2, a)) : pbind p f i = f a i2 := by
  simp [pbind, h]

theorem pbind_eq_some {α β : Type} {p : P α} {f : α → P β} {i r : Str} {b : β} :
    pbind p f i = some (r, b) ↔ ∃ i2 a, p i = some (i2, a) ∧ f a i2 = some (r, b) := by
  cases h : p i with
  | none => simp [pbind, h]
  | some x =>
    cases x with
    | mk i2 a =>
      simp only [pbind, h]
      constructor
      · intro hf
        exact ⟨i2, a, rfl, hf⟩
      · rintro ⟨i3, a3, h3, hf⟩
        cases h3
        exact hf

theorem ppure_eq_some {α : Type} {a : α} {i r : Str} {b : α} :
    ppure a i = some (r, b) ↔ r = i ∧ b = a := by
  constructor
  · intro h
    cases h
    exact ⟨rfl, rfl⟩
  · rintro ⟨rfl, rfl⟩
    rfl

theorem tag_none {t i : Str} (h : t.isPrefixOf i = false) : tag t i = none := by
  simp [tag, h]

theorem tag_append (t r : Str) : tag t (t ++ r) = some (r, t) := by
  have hp : t.isPrefixOf (t ++ r) = true :=
    List.isPrefixOf_iff_prefix.mpr (List.prefix_append t r)
  simp [tag, hp, List.drop_left]

theorem takeTill_all {p : Char → Bool} {i : Str} (h : ∀ c ∈ i, p c = false) :
    takeTill p i = some ([], i) := by
  have h1 : ∀ c ∈ i, (!(p c)) = true := by
    intro c hc
    simp [h c hc]
  simp [takeTill, List.dropWhile_eq_nil_iff.mpr h1, List.takeWhile_eq_self_iff.mpr h1]

theorem takeTill_split {p : Char → Bool} {a : Str} (c0 : Char) (b : Str)
    (ha : ∀ c ∈ a, p c = false) (hc : p c0 = true) :
    takeTill p (a ++ c0 :: b) = some (c0 :: b, a) := by
  have ha2 : ∀ c ∈ a, (!(p c)) = true := by
    intro c hcm
    simp [ha c hcm]
  have h1 : (a ++ c0 :: b).takeWhile (fun c => !(p c)) = a := by
    rw [List.takeWhile_append_of_pos ha2]
    simp [List.takeWhile_cons, hc]
  have h2 : (a ++ c0 :: b).dropWhile (fun c => !(p c)) = c0 :: b := by
    rw [List.dropWhile_append_of_pos ha2]
    simp [List.dropWhile_cons, hc]
  simp [takeTill, h1, h2]

theorem pchar_cons {c x : Char} {xs : Str} (h : x = c) : pchar c (x :: xs) = some (xs, c) := by
  simp [pchar, h]

theorem alt3_none {α : Type} {p q r : P α} {i : Str}
    (hp : p i = none) (hq : q i = none) (hr : r i = none) : alt3 p q r i = none := by
  simp [alt3, alt2, hp, hq, hr]

theorem many0Tag_of_no_prefix {t i : Str} (h : t.isPrefixOf i = false) :
    many0Tag t i = some (i, []) := by
  show many0TagFuel t (i.length + 1) i = some (i, [])
  simp [many0TagFuel, tag_none h]

/-! ## C1: the calm wind line and the default `WindInfo` -/

/-- C1 (counterexample): on the input `"Wind: Calm:0"`, `parse_windinfo`
succeeds, but the returned cardinal is the sentinel string `"μ"` — not
the empty string the claim asserts. -/
theorem C1_cex :
    (parse_windinfo (S ("Wind: Calm:0"))).map (fun p => p.2.cardinal) = some (S ("μ"))
    ∧ S ("μ") ≠ ([] : Str) := by
  constructor
  · rfl
  · decide

/-- C1 (amended): for the input line `"Wind: Calm:0"`, `parse_windinfo`
succeeds with the whole input consumed and returns `WindInfo::default()`,
whose cardinal is the sentinel string `"μ"` and whose azimuth, mph and
knots all equal `0`. -/
theorem C1_calm_default :
    parse_windinfo (S ("Wind: Calm:0")) = some ([], WindInfo.default)
    ∧ WindInfo.default.cardinal = S ("μ")
    ∧ WindInfo.default.azimuth = F64V.num (qn 0)
    ∧ WindInfo.default.mph = F64V.num (qn 0)
    ∧ WindInfo.default.knots = F64V.num (qn 0) := by
  refine ⟨?_, rfl, rfl, rfl, rfl⟩
  rfl

/-! ## C10: `parse_station` never fails -/

/-- C10: `parse_station` is infallible — on every input it returns a
success (carrying either `some` station or `none`), never a parse
error; in particular `parse_weather` can never fail at the
station-parsing step itself. -/
theorem C10_parse_station_total : ∀ i : Str, (parse_station i).isSome = true := by
  intro i
  unfold parse_station
  cases h : alt2 (tagNoCase (S ("Station name not available"))) (takeTill (fun c => c = '\n')) i with
  | none =>
    exfalso
    unfold alt2 at h
    cases h2 : tagNoCase (S ("Station name not available")) i with
    | none => simp [h2, takeTill] at h
    | some x => simp [h2] at h
  | some x =>
    cases x with
    | mk input output =>
      cases h3 : Station.tryFrom output <;> simp [h3]

/-! ## `splitChar` lemmas -/

theorem splitChar_of_not_mem {sep : Char} {l : Str} (h : sep ∉ l) :
    splitChar sep l = [l] := by
  induction l with
  | nil => rfl
  | cons c cs ih =>
    have hc : ¬(c = sep) := by
      intro hceq
      exact h (hceq ▸ List.mem_cons_self c cs)
    have hcs : sep ∉ cs := fun hm => h (List.mem_cons_of_mem c hm)
    simp [splitChar, hc, ih hcs]

theorem splitChar_head (sep : Char) (l : Str) :
    ∃ ps, splitChar sep l = l.takeWhile (fun c => c != sep) :: ps := by
  induction l with
  | nil => exact ⟨[], rfl⟩
  | cons c cs ih =>
    by_cases hc : c = sep
    · subst hc
      refine ⟨splitChar c cs, ?_⟩
      simp [splitChar, List.takeWhile_cons]
    · obtain ⟨ps, hps⟩ := ih
      refine ⟨ps, ?_⟩
      simp [splitChar, hc, hps, List.takeWhile_cons]

theorem count_cons_self_char (sep : Char) (cs : Str) :
    (sep :: cs).count sep = cs.count sep + 1 := by
  simp [List.count_cons]

theorem count_cons_ne_char {c sep : Char} (hc : ¬c = sep) (cs : Str) :
    (c :: cs).count sep = cs.count sep := by
  have hne : ¬sep = c := fun h => hc h.symm
  simp [List.count_cons, hne]

theorem splitChar_length (sep : Char) (l : Str) :
    (splitChar sep l).length = l.count sep + 1 := by
  induction l with
  | nil => simp [splitChar]
  | cons c cs ih =>
    by_cases hc : c = sep
    · subst hc
      rw [count_cons_self_char]
      have hsp : splitChar c (c :: cs) = [] :: splitChar c cs := by
        simp [splitChar]
      rw [hsp, List.length_cons, ih]
    · obtain ⟨ps, hps⟩ := splitChar_head sep cs
      rw [count_cons_ne_char hc]
      simp only [splitChar, if_neg hc, hps, List.length_cons]
      simp only [hps, List.length_cons] at ih
      omega

theorem splitChar_count_one {sep : Char} {l : Str} (h : l.count sep = 1) :
    splitChar sep l = [l.takeWhile (fun c => c != sep), (l.dropWhile (fun c => c != sep)).tail] := by
  induction l with
  | nil => simp at h
  | cons c cs ih =>
    by_cases hc : c = sep
    · subst hc
      rw [count_cons_self_char] at h
      have hcs : cs.count c = 0 := by omega
      have hns : c ∉ cs := by
        intro hm
        rw [List.count_eq_zero] at hcs
        exact hcs hm
      simp [splitChar, splitChar_of_not_mem hns, List.takeWhile_cons, List.dropWhile_cons]
    · rw [count_cons_ne_char hc] at h
      have := ih h
      simp [splitChar, hc, this, List.takeWhile_cons, List.dropWhile_cons,
            show (c != sep) = true by simp [hc]]

/-! ## C9: the timestamp parser's unbounded slash scan -/

/-- C9: `parse_time`'s scan for `'/'` is not bounded by the end of the
line: an input with no `'/'` anywhere fails; prepending any
slash-free text (newlines included) before the `'/'` never changes the
result, which is computed entirely from what follows the first `'/'`;
and a concrete input whose first two lines contain no slash parses
successfully, silently consuming more than one line. -/
theorem C9_time_slash_scan :
    (∀ i : Str, i.all (fun c => c != '/') = true → parse_time i = none)
    ∧ (∀ a b : Str, a.all (fun c => c != '/') = true →
        parse_time (a ++ '/' :: b) = parse_time_tail b)
    ∧ parse_time (S ("first line no slash\nsecond line\nMar 28, 2021 - 04:00 AM EDT / 2021.03.28 0800 UTC"))
      = some ([], { year := 2021, month := 3, day := 28, time := S ("0800 UTC") }) := by
  refine ⟨?_, ?_, ?_⟩
  · intro i h
    have hall : ∀ c ∈ i, decide (c = '/') = false := by
      intro c hc
      have := List.all_eq_true.mp h c hc
      simpa using this
    have h1 := takeTill_all (p := fun c => decide (c = '/')) hall
    simp only [parse_time, pbind_some h1]
    exact pbind_none (by simp [pchar])
  · intro a b h
    have hall : ∀ c ∈ a, decide (c = '/') = false := by
      intro c hc
      have := List.all_eq_true.mp h c hc
      simpa using this
    have h1 := takeTill_split (p := fun c => decide (c = '/')) '/' b hall (by simp)
    simp only [parse_time, pbind_some h1, pbind_some (pchar_cons (rfl : '/' = '/'))]
  · rfl

/-! ## C7: the "Station name not available" sentinel -/

/-- C7: for every header line equal, case-insensitively, to
`"Station name not available"`, `parse_station` succeeds and returns
`none` for the station (absence of the entity, not an error), leaving
everything after the line untouched. -/
theorem C7_station_unavailable :
    ∀ line rest : Str,
      line.map lowerA = (S ("Station name not available")).map lowerA →
      parse_station (line ++ rest) = some (rest, none) := by
  intro line rest h
  have hlen : line.length = (S ("Station name not available")).length := by
    have := congrArg List.length h
    simpa using this
  have htake : (line ++ rest).take (S ("Station name not available")).length = line := by
    rw [← hlen]
    exact List.take_left line rest
  have hdrop : (line ++ rest).drop (S ("Station name not available")).length = rest := by
    rw [← hlen]
    exact List.drop_left line rest
  have htnc : tagNoCase (S ("Station name not available")) (line ++ rest) = some (rest, line) := by
    have hcond : (S ("Station name not available")).length ≤ (line ++ rest).length ∧
        ((line ++ rest).take (S ("Station name not available")).length).map lowerA =
          (S ("Station name not available")).map lowerA := by
      constructor
      · rw [List.length_append, ← hlen]
        omega
      · rw [htake]
        exact h
    unfold tagNoCase
    rw [if_pos hcond, htake, hdrop]
  have hnc : ',' ∉ line := by
    intro hm
    have h2 : lowerA ',' ∈ line.map lowerA := List.mem_map_of_mem lowerA hm
    rw [h] at h2
    have : lowerA ',' = ',' := by decide
    rw [this] at h2
    revert h2
    decide
  have htf : Station.tryFrom line = Except.error (S ("Failure parsing ") ++ line) := by
    unfold Station.tryFrom
    rw [splitChar_of_not_mem hnc]
  unfold parse_station alt2
  rw [htnc]
  simp only [htf]

/-! ## `tagNoCase` inversion and append lemmas -/

theorem tagNoCase_eq_some {t i i2 out : Str} (h : tagNoCase t i = some (i2, out)) :
    i2 = i.drop t.length ∧ out = i.take t.length ∧
    (i.take t.length).map lowerA = t.map lowerA := by
  unfold tagNoCase at h
  by_cases hc : t.length ≤ i.length ∧ (i.take t.length).map lowerA = t.map lowerA
  · rw [if_pos hc] at h
    cases h
    exact ⟨rfl, rfl, hc.2⟩
  · rw [if_neg hc] at h
    cases h

theorem prefix_append_cons_not_mem {α : Type} (a : List α) (p : List α) (c : α) (b : List α)
    (h : p <+: a ++ c :: b) (hc : c ∉ p) : p <+: a := by
  induction a generalizing p with
  | nil =>
    cases p with
    | nil => exact List.nil_prefix
    | cons x p2 =>
      rw [List.nil_append, List.cons_prefix_cons] at h
      exact absurd (h.1 ▸ List.mem_cons_self x p2) hc
  | cons d a2 ih =>
    cases p with
    | nil => exact List.nil_prefix
    | cons x p2 =>
      rw [List.cons_append, List.cons_prefix_cons] at h
      have hc2 : c ∉ p2 := fun hm => hc (List.mem_cons_of_mem x hm)
      exact List.cons_prefix_cons.mpr ⟨h.1, ih p2 h.2 hc2⟩

theorem tagNoCase_append_newline_none {t line rest : Str}
    (hnl : '\n' ∉ t.map lowerA)
    (h : (t.map lowerA).isPrefixOf (line.map lowerA) = false) :
    tagNoCase t (line ++ '\n' :: rest) = none := by
  unfold tagNoCase
  rw [if_neg]
  rintro ⟨h1, h2⟩
  have hpre : (t.map lowerA) <+: ((line ++ '\n' :: rest).map lowerA) := by
    refine ⟨((line ++ '\n' :: rest).drop t.length).map lowerA, ?_⟩
    rw [← h2, ← List.map_append, List.take_append_drop]
  have hlow : lowerA '\n' = '\n' := by decide
  have hmap : (line ++ '\n' :: rest).map lowerA
      = line.map lowerA ++ '\n' :: rest.map lowerA := by
    rw [List.map_append, List.map_cons, hlow]
  rw [hmap] at hpre
  have hp2 := prefix_append_cons_not_mem (line.map lowerA) (t.map lowerA) '\n'
    (rest.map lowerA) hpre hnl
  have := List.isPrefixOf_iff_prefix.mpr hp2
  rw [h] at this
  exact Bool.noConfusion this

/-- Any line-local `all`-style hypothesis gives the pointwise form
`takeTill_split` needs. -/
theorem all_bne_to_decide {c0 : Char} {l : Str} (h : l.all (fun c => c != c0) = true) :
    ∀ c ∈ l, decide (c = c0) = false := by
  intro c hc
  have := List.all_eq_true.mp h c hc
  simpa using this

theorem countryOf_eq (s2 : Str) :
    countryOf s2 = trimChar (s2.takeWhile (fun c => c != '(')) := by
  unfold countryOf
  obtain ⟨ps, hps⟩ := splitChar_head '(' s2
  rw [hps]

/-! ## C8: station headers with two or more commas -/

/-- C8: for every station header line containing two or more commas (and
no newline), `Station.tryFrom` returns an error, and `parse_station` on
the document therefore yields `none` for the station: the comma split
requires exactly two segments. -/
theorem C8_two_commas_station_none :
    ∀ line rest : Str,
      2 ≤ line.count ',' →
      line.all (fun c => c != '\n') = true →
      Station.tryFrom line = Except.error (S ("Failure parsing ") ++ line)
      ∧ (parse_station (line ++ '\n' :: rest)).map (fun p => p.2) = some none := by
  intro line rest hcnt hnl
  have hlen := splitChar_length ',' line
  have herr : ∀ l2 : Str, ¬(',' ∈ l2) →
      Station.tryFrom l2 = Except.error (S ("Failure parsing ") ++ l2) := by
    intro l2 hm
    unfold Station.tryFrom
    rw [splitChar_of_not_mem hm]
  have htf : Station.tryFrom line = Except.error (S ("Failure parsing ") ++ line) := by
    unfold Station.tryFrom
    rcases hsp : splitChar ',' line with _ | ⟨a, _ | ⟨b, _ | ⟨c3, ds⟩⟩⟩
    · rfl
    · rfl
    · exfalso
      rw [hsp] at hlen
      simp at hlen
      omega
    · rfl
  refine ⟨htf, ?_⟩
  cases htn : tagNoCase (S ("Station name not available")) (line ++ '\n' :: rest) with
  | none =>
    have htt := takeTill_split (p := fun c => decide (c = '\n')) '\n' rest
      (all_bne_to_decide hnl) (by simp)
    unfold parse_station alt2
    rw [htn, htt]
    simp only [htf]
    rfl
  | some x =>
    cases x with
    | mk i2 out =>
      obtain ⟨hi2, hout, hmapeq⟩ := tagNoCase_eq_some htn
      have hnc : ',' ∉ out := by
        intro hm
        have h2 : lowerA ',' ∈ out.map lowerA := List.mem_map_of_mem lowerA hm
        rw [hout] at h2
        rw [hmapeq] at h2
        have : lowerA ',' = ',' := by decide
        rw [this] at h2
        revert h2
        decide
      have htf2 := herr out hnc
      unfold parse_station alt2
      rw [htn]
      simp only [htf2]
      rfl

/-! ## C2: comma-splitting of a named station header -/

/-- C2 (counterexample): the Yakima header line contains a comma (two,
in fact, and no newline), yet `parse_station` yields `none` for the
station rather than the `Some(Station)` the claim promises. -/
theorem C2_cex :
    (parse_station yakimaLine).map (fun p => p.2) = some none
    ∧ 1 ≤ yakimaLine.count ',' := by
  constructor
  · rfl
  · decide

/-- C2 (amended): for every station header line that contains exactly
one comma, no newline, and does not start case-insensitively with
`"Station name not available"`, `parse_station` returns `Some(Station)`
where `place` is the text before the comma and `country` is the
remaining segment truncated at the first `'('` (if any) and trimmed of
surrounding whitespace. -/
theorem C2_station_split :
    ∀ line rest : Str,
      line.count ',' = 1 →
      line.all (fun c => c != '\n') = true →
      ((S ("Station name not available")).map lowerA).isPrefixOf (line.map lowerA) = false →
      parse_station (line ++ '\n' :: rest) =
        some ('\n' :: rest,
          some { place := line.takeWhile (fun c => c != ','),
                 country := trimChar (((line.dropWhile (fun c => c != ',')).tail).takeWhile
                              (fun c => c != '(')) }) := by
  intro line rest h1 h2 h3
  have hnlt : '\n' ∉ (S ("Station name not available")).map lowerA := by decide
  have htn := @tagNoCase_append_newline_none (S ("Station name not available")) line rest hnlt h3
  have htt := takeTill_split (p := fun c => decide (c = '\n')) '\n' rest
    (all_bne_to_decide h2) (by simp)
  have htf : Station.tryFrom line =
      Except.ok { place := line.takeWhile (fun c => c != ','),
                  country := countryOf ((line.dropWhile (fun c => c != ',')).tail) } := by
    unfold Station.tryFrom
    rw [splitChar_count_one h1]
  unfold parse_station alt2
  rw [htn, htt]
  simp only [htf, countryOf_eq]

/-! ## Wind-shape and optional-line helper lemmas -/

theorem windinfo_none_of_no_tags {i : Str}
    (h1 : (S ("Wind: Calm:0")).isPrefixOf i = false)
    (h2 : (S ("Wind: from the ")).isPrefixOf i = false)
    (h3 : (S ("Wind: Variable at ")).isPrefixOf i = false) :
    parse_windinfo i = none := by
  have hc : calmBranch i = none := by
    unfold calmBranch many1Tag
    exact pbind_none (pbind_none (tag_none h1))
  have hf : windFromBranch i = none := by
    unfold windFromBranch
    exact pbind_none (tag_none h2)
  have hv : windVarBranch i = none := by
    unfold windVarBranch
    exact pbind_none (tag_none h3)
  unfold parse_windinfo
  exact alt3_none hc hf hv

theorem weather_none_of_wind_none :
    ∀ (doc i4 : Str) (v : Option Station × WeatherTime),
      stagesBeforeWind doc = some (i4, v) →
      parse_windinfo i4 = none →
      parse_weather doc = none := by
  intro doc i4 v hst hw
  simp only [stagesBeforeWind, pbind_eq_some, ppure_eq_some] at hst
  obtain ⟨i1, st, h1, i2, c1, h2, i3, t, h3, i4b, c2, h4, hi, hv⟩ := hst
  subst hi
  simp only [parse_weather, pbind_some h1, pbind_some h2, pbind_some h3, pbind_some h4,
    pbind_none hw]

theorem sky_skip_of_no_tag {i : Str}
    (h : (S ("Sky conditions: ")).isPrefixOf i = false) :
    parse_sky_condition i = some (i, none) := by
  have hpo : popt (tag (S ("Sky conditions: "))) i = some (i, none) := by
    simp [popt, tag_none h]
  simp only [parse_sky_condition, pbind_some hpo]
  simp [ppure]

theorem weather_str_skip_of_no_tag {i : Str}
    (h : (S ("Weather: ")).isPrefixOf i = false) :
    parse_weather_str i = some (i, none) := by
  have hm0 := many0Tag_of_no_prefix h
  simp only [parse_weather_str, pbind_some hm0]
  simp [ppure]

theorem weather_of_optional_lines_absent :
    ∀ (doc i : Str) (st : Option Station) (t : WeatherTime) (w : WindInfo) (v : Str)
      (i2 : Str) (td dd : Temperature) (rh : F64V) (pr : Int),
      stagesBeforeSky doc = some (i, (st, t, w, v)) →
      (S ("Sky conditions: ")).isPrefixOf i = false →
      (S ("Weather: ")).isPrefixOf i = false →
      stagesFromTemperature i = some (i2, (td, dd, rh, pr)) →
      parse_weather doc = some (i2,
        { station := st, weather_time := t, wind := w, visibility := v,
          sky_condition := none, weather := none, temperature := td,
          dewpoint := dd, relative_humidity := rh, pressure := pr }) := by
  intro doc i st t w v i2 td dd rh pr hst hsky hwea htail
  simp only [stagesBeforeSky, pbind_eq_some, ppure_eq_some] at hst
  obtain ⟨j1, st1, h1, j2, c1, h2, j3, t1, h3, j4, c2, h4, j5, w1, h5, j6, c3, h6,
    j7, g1, h7, j8, v1, h8, j9, c4, h9, hj, hv⟩ := hst
  subst hj
  cases hv
  simp only [stagesFromTemperature, pbind_eq_some, ppure_eq_some] at htail
  obtain ⟨k1, g2, h10, k2, td1, h11, k3, c5, h12, k4, g3, h13, k5, dd1, h14,
    k6, c6, h15, k7, rh1, h16, k8, pr1, h17, hk, hv2⟩ := htail
  subst hk
  cases hv2
  simp only [parse_weather, pbind_some h1, pbind_some h2, pbind_some h3, pbind_some h4,
    pbind_some h5, pbind_some h6, pbind_some h7, pbind_some h8, pbind_some h9,
    pbind_some (sky_skip_of_no_tag hsky), pbind_some (weather_str_skip_of_no_tag hwea),
    pbind_some h10, pbind_some h11, pbind_some h12, pbind_some h13, pbind_some h14,
    pbind_some h15, pbind_some h16, pbind_some h17, ppure]

/-! ## Failure-propagation lemmas for the numeric fields -/

theorem weather_none_of_temperature_none :
    ∀ (doc i : Str)
      (v : Option Station × WeatherTime × WindInfo × Str × Option Str × Option Str),
      stagesBeforeTemperature doc = some (i, v) →
      parse_temperature i = none →
      parse_weather doc = none := by
  intro doc i v hst hbad
  simp only [stagesBeforeTemperature, pbind_eq_some, ppure_eq_some] at hst
  obtain ⟨j1, a1, h1, j2, a2, h2, j3, a3, h3, j4, a4, h4, j5, a5, h5, j6, a6, h6,
    j7, a7, h7, j8, a8, h8, j9, a9, h9, j10, a10, h10, j11, a11, h11, j12, a12, h12,
    hj, hv⟩ := hst
  subst hj
  simp only [parse_weather, pbind_some h1, pbind_some h2, pbind_some h3, pbind_some h4,
    pbind_some h5, pbind_some h6, pbind_some h7, pbind_some h8, pbind_some h9,
    pbind_some h10, pbind_some h11, pbind_some h12, pbind_none hbad]

theorem weather_none_of_dewpoint_none :
    ∀ (doc i : Str)
      (v : Option Station × WeatherTime × WindInfo × Str × Option Str × Option Str × Temperature),
      stagesBeforeDewpoint doc = some (i, v) →
      parse_temperature i = none →
      parse_weather doc = none := by
  intro doc i v hst hbad
  simp only [stagesBeforeDewpoint, pbind_eq_some, ppure_eq_some] at hst
  obtain ⟨j1, a1, h1, j2, a2, h2, j3, a3, h3, j4, a4, h4, j5, a5, h5, j6, a6, h6,
    j7, a7, h7, j8, a8, h8, j9, a9, h9, j10, a10, h10, j11, a11, h11, j12, a12, h12,
    j13, a13, h13, j14, a14, h14, j15, a15, h15, hj, hv⟩ := hst
  subst hj
  simp only [parse_weather, pbind_some h1, pbind_some h2, pbind_some h3, pbind_some h4,
    pbind_some h5, pbind_some h6, pbind_some h7, pbind_some h8, pbind_some h9,
    pbind_some h10, pbind_some h11, pbind_some h12, pbind_some h13, pbind_some h14,
    pbind_some h15, pbind_none hbad]

theorem weather_none_of_humidity_none :
    ∀ (doc i : Str)
      (v : Option Station × WeatherTime × WindInfo × Str × Option Str × Option Str ×
           Temperature × Temperature),
      stagesBeforeHumidity doc = some (i, v) →
      parse_relative_humidity i = none →
      parse_weather doc = none := by
  intro doc i v hst hbad
  simp only [stagesBeforeHumidity, pbind_eq_some, ppure_eq_some] at hst
  obtain ⟨j1, a1, h1, j2, a2, h2, j3, a3, h3, j4, a4, h4, j5, a5, h5, j6, a6, h6,
    j7, a7, h7, j8, a8, h8, j9, a9, h9, j10, a10, h10, j11, a11, h11, j12, a12, h12,
    j13, a13, h13, j14, a14, h14, j15, a15, h15, j16, a16, h16, j17, a17, h17,
    hj, hv⟩ := hst
  subst hj
  simp only [parse_weather, pbind_some h1, pbind_some h2, pbind_some h3, pbind_some h4,
    pbind_some h5, pbind_some h6, pbind_some h7, pbind_some h8, pbind_some h9,
    pbind_some h10, pbind_some h11, pbind_some h12, pbind_some h13, pbind_some h14,
    pbind_some h15, pbind_some h16, pbind_some h17, pbind_none hbad]

theorem weather_none_of_pressure_none :
    ∀ (doc i : Str)
      (v : Option Station × WeatherTime × WindInfo × Str × Option Str × Option Str ×
           Temperature × Temperature × F64V),
      stagesBeforePressure doc = some (i, v) →
      parse_pressure i = none →
      parse_weather doc = none := by
  intro doc i v hst hbad
  simp only [stagesBeforePressure, pbind_eq_some, ppure_eq_some] at hst
  obtain ⟨j1, a1, h1, j2, a2, h2, j3, a3, h3, j4, a4, h4, j5, a5, h5, j6, a6, h6,
    j7, a7, h7, j8, a8, h8, j9, a9, h9, j10, a10, h10, j11, a11, h11, j12, a12, h12,
    j13, a13, h13, j14, a14, h14, j15, a15, h15, j16, a16, h16, j17, a17, h17,
    j18, a18, h18, hj, hv⟩ := hst
  subst hj
  simp only [parse_weather, pbind_some h1, pbind_some h2, pbind_some h3, pbind_some h4,
    pbind_some h5, pbind_some h6, pbind_some h7, pbind_some h8, pbind_some h9,
    pbind_some h10, pbind_some h11, pbind_some h12, pbind_some h13, pbind_some h14,
    pbind_some h15, pbind_some h16, pbind_some h17, pbind_some h18, pbind_none hbad]

/-! ## Malformed numeric tokens make the field parsers fail -/

theorem all_not_wsp_to_decide {l : Str} (h : l.all (fun c => !(wsp c)) = true) :
    ∀ c ∈ l, wsp c = false := by
  intro c hc
  have := List.all_eq_true.mp h c hc
  simpa using this

theorem parse_pressure_malformed :
    ∀ (pre tok rest : Str),
      pre.all (fun c => c != '(') = true →
      tok.all (fun c => !(wsp c)) = true →
      parseI16 tok = none →
      parse_pressure (S ("Pressure (altimeter): ") ++ (pre ++ '(' :: (tok ++ ' ' :: rest)))
        = none := by
  intro pre tok rest hpre htok hbad
  have h1 := tag_append (S ("Pressure (altimeter): ")) (pre ++ '(' :: (tok ++ ' ' :: rest))
  have h2 := takeTill_split (p := fun c => decide (c = '(')) '(' (tok ++ ' ' :: rest)
    (all_bne_to_decide hpre) (by simp)
  have h3 := takeTill_split (p := wsp) ' ' rest (all_not_wsp_to_decide htok) (by decide)
  have h4 : mapRes (takeTill wsp) parseI16 (tok ++ ' ' :: rest) = none := by
    simp [mapRes, h3, hbad]
  simp only [parse_pressure, pbind_some h1, pbind_some h2,
    pbind_some (pchar_cons (rfl : '(' = '(')), pbind_none h4]

theorem parse_temperature_malformed :
    ∀ (tok rest : Str),
      tok ≠ [] →
      tok.all (fun c => !(wsp c)) = true →
      parseF64 tok = none →
      parse_temperature (' ' :: (tok ++ ' ' :: rest)) = none := by
  intro tok rest hne htok hbad
  cases tok with
  | nil => exact absurd rfl hne
  | cons c0 tok2 =>
    have hw0 : wsp c0 = false :=
      all_not_wsp_to_decide htok c0 (List.mem_cons_self c0 tok2)
    have hns : nomSpace c0 = false := by
      cases hq : nomSpace c0 with
      | false => rfl
      | true =>
        exfalso
        simp [nomSpace] at hq
        rcases hq with hq | hq <;> subst hq <;> simp [wsp] at hw0
    have hns2 : ¬c0 = ' ' ∧ ¬c0 = '\t' := by
      simpa [nomSpace] using hns
    have hsp : spaces (' ' :: (c0 :: tok2 ++ ' ' :: rest))
        = some (c0 :: tok2 ++ ' ' :: rest, [' ']) := by
      unfold spaces space1
      simp [List.takeWhile_cons, List.dropWhile_cons, nomSpace, hns2.1, hns2.2]
    have h3 := takeTill_split (p := wsp) ' ' rest (all_not_wsp_to_decide htok) (by decide)
    have h3b : takeTill wsp (c0 :: (tok2 ++ ' ' :: rest)) = some (' ' :: rest, c0 :: tok2) := by
      rw [← List.cons_append]
      exact h3
    have h4 : mapRes (takeTill wsp) parseF64 (c0 :: (tok2 ++ ' ' :: rest)) = none := by
      simp [mapRes, h3b, hbad]
    simp only [parse_temperature, pbind_some hsp]
    exact pbind_none h4

theorem parse_relative_humidity_malformed :
    ∀ (tok rest : Str),
      tok.all (fun c => c != '%') = true →
      parseF64 tok = none →
      parse_relative_humidity (S ("Relative Humidity: ") ++ (tok ++ '%' :: rest)) = none := by
  intro tok rest htok hbad
  have h1 := tag_append (S ("Relative Humidity: ")) (tok ++ '%' :: rest)
  have h2 := takeTill_split (p := fun c => decide (c = '%')) '%' rest
    (all_bne_to_decide htok) (by simp)
  have h3 : mapRes (takeTill (fun c => decide (c = '%'))) parseF64 (tok ++ '%' :: rest)
      = none := by
    simp [mapRes, h2, hbad]
  simp only [parse_relative_humidity, pbind_some h1, pbind_none h3]

/-! ## C4: an unrecognized wind line fails the whole parse -/

/-- C4: a wind line that starts with none of the three documented shape
literals (`"Wind: Calm:0"`, `"Wind: from the "`, `"Wind: Variable at "`)
makes `parse_windinfo` fail, and a failing `parse_windinfo` at its
position in the document makes `parse_weather` return an error rather
than any record. -/
theorem C4_unrecognized_wind_fatal :
    (∀ i : Str,
        (S ("Wind: Calm:0")).isPrefixOf i = false →
        (S ("Wind: from the ")).isPrefixOf i = false →
        (S ("Wind: Variable at ")).isPrefixOf i = false →
        parse_windinfo i = none)
    ∧ (∀ (doc i4 : Str) (v : Option Station × WeatherTime),
        stagesBeforeWind doc = some (i4, v) →
        parse_windinfo i4 = none →
        parse_weather doc = none) :=
  ⟨fun _ h1 h2 h3 => windinfo_none_of_no_tags h1 h2 h3, weather_none_of_wind_none⟩

set_option maxRecDepth 40000 in
/-- Witness for C4 at the concrete document `badWindReport`, whose wind
line is `"Wind: unexpected"`. -/
theorem C4_witness : parse_weather badWindReport = none :=
  C4_unrecognized_wind_fatal.2 badWindReport
    (S ("Wind: unexpected\nVisibility: 4 mile(s):0\nTemperature: 80 F (27 C)\nDew Point: 66 F (19 C)\nRelative Humidity: 61%\nPressure (altimeter): 29.80 in. Hg (1009 hPa)"))
    (none, { year := 2021, month := 5, day := 16, time := S ("1030 UTC") })
    rfl
    (C4_unrecognized_wind_fatal.1 _ (by decide) (by decide) (by decide))

/-! ## C5: malformed mandatory numeric fields are fatal -/

/-- C5: a failing numeric field parser at its position — the ambient
temperature, the dew point, the relative humidity, or the pressure —
makes `parse_weather` fail and return no record at all; and a
non-numeric token in the pressure parentheses, a non-numeric
temperature (or dew-point) token, and a non-numeric relative-humidity
token make `parse_pressure`, `parse_temperature` and
`parse_relative_humidity` fail respectively. -/
theorem C5_malformed_numeric_fatal :
    (∀ (doc i : Str)
        (v : Option Station × WeatherTime × WindInfo × Str × Option Str × Option Str),
        stagesBeforeTemperature doc = some (i, v) →
        parse_temperature i = none → parse_weather doc = none)
    ∧ (∀ (doc i : Str)
        (v : Option Station × WeatherTime × WindInfo × Str × Option Str × Option Str ×
             Temperature),
        stagesBeforeDewpoint doc = some (i, v) →
        parse_temperature i = none → parse_weather doc = none)
    ∧ (∀ (doc i : Str)
        (v : Option Station × WeatherTime × WindInfo × Str × Option Str × Option Str ×
             Temperature × Temperature),
        stagesBeforeHumidity doc = some (i, v) →
        parse_relative_humidity i = none → parse_weather doc = none)
    ∧ (∀ (doc i : Str)
        (v : Option Station × WeatherTime × WindInfo × Str × Option Str × Option Str ×
             Temperature × Temperature × F64V),
        stagesBeforePressure doc = some (i, v) →
        parse_pressure i = none → parse_weather doc = none)
    ∧ (∀ (pre tok rest : Str),
        pre.all (fun c => c != '(') = true →
        tok.all (fun c => !(wsp c)) = true →
        parseI16 tok = none →
        parse_pressure (S ("Pressure (altimeter): ") ++ (pre ++ '(' :: (tok ++ ' ' :: rest)))
          = none)
    ∧ (∀ (tok rest : Str),
        tok ≠ [] →
        tok.all (fun c => !(wsp c)) = true →
        parseF64 tok = none →
        parse_temperature (' ' :: (tok ++ ' ' :: rest)) = none)
    ∧ (∀ (tok rest : Str),
        tok.all (fun c => c != '%') = true →
        parseF64 tok = none →
        parse_relative_humidity (S ("Relative Humidity: ") ++ (tok ++ '%' :: rest)) = none) :=
  ⟨weather_none_of_temperature_none, weather_none_of_dewpoint_none,
   weather_none_of_humidity_none, weather_none_of_pressure_none,
   parse_pressure_malformed, parse_temperature_malformed,
   parse_relative_humidity_malformed⟩

set_option maxRecDepth 40000 in
/-- Witness for C5 at two concrete documents: `badPressureReport`, whose
parenthesized pressure token is `"abcd"`, and `badHumidityReport`, whose
relative-humidity token is `"abc"` (the latter combines the humidity
propagation conjunct with the humidity token conjunct). -/
theorem C5_witness :
    parse_weather badPressureReport = none ∧ parse_weather badHumidityReport = none :=
  ⟨C5_malformed_numeric_fatal.2.2.2.1 badPressureReport
    (S ("Pressure (altimeter): 29.80 in. Hg (abcd hPa)"))
    (none, { year := 2021, month := 5, day := 16, time := S ("1030 UTC") },
     WindInfo.default, S ("4 mile(s):0"), none, none,
     { celsius := F64V.num (qn 27), fahrenheit := F64V.num (qn 80) },
     { celsius := F64V.num (qn 19), fahrenheit := F64V.num (qn 66) },
     F64V.num (qn 61))
    rfl (by decide),
   C5_malformed_numeric_fatal.2.2.1 badHumidityReport
    (S ("Relative Humidity: ") ++ (S ("abc") ++ '%' ::
      S ("\nPressure (altimeter): 29.80 in. Hg (1009 hPa)")))
    (none, { year := 2021, month := 5, day := 16, time := S ("1030 UTC") },
     WindInfo.default, S ("4 mile(s):0"), none, none,
     { celsius := F64V.num (qn 27), fahrenheit := F64V.num (qn 80) },
     { celsius := F64V.num (qn 19), fahrenheit := F64V.num (qn 66) })
    rfl
    (C5_malformed_numeric_fatal.2.2.2.2.2.2 (S ("abc"))
      (S ("\nPressure (altimeter): 29.80 in. Hg (1009 hPa)"))
      (by decide) (by decide))⟩

/-! ## C6: the sky-condition and weather lines are optional -/

/-- C6: when the `"Sky conditions: "` (resp. `"Weather: "`) tag is
absent, `parse_sky_condition` (resp. `parse_weather_str`) succeeds with
`none` and consumes nothing, so the same line is inspected by the next
stage; and a report missing both lines still parses successfully with
`sky_condition = none` and `weather = none`. -/
theorem C6_optional_sections :
    (∀ i : Str, (S ("Sky conditions: ")).isPrefixOf i = false →
        parse_sky_condition i = some (i, none))
    ∧ (∀ i : Str, (S ("Weather: ")).isPrefixOf i = false →
        parse_weather_str i = some (i, none))
    ∧ (∀ (doc i : Str) (st : Option Station) (t : WeatherTime) (w : WindInfo) (v : Str)
        (i2 : Str) (td dd : Temperature) (rh : F64V) (pr : Int),
        stagesBeforeSky doc = some (i, (st, t, w, v)) →
        (S ("Sky conditions: ")).isPrefixOf i = false →
        (S ("Weather: ")).isPrefixOf i = false →
        stagesFromTemperature i = some (i2, (td, dd, rh, pr)) →
        parse_weather doc = some (i2,
          { station := st, weather_time := t, wind := w, visibility := v,
            sky_condition := none, weather := none, temperature := td,
            dewpoint := dd, relative_humidity := rh, pressure := pr })) :=
  ⟨fun _ h => sky_skip_of_no_tag h, fun _ h => weather_str_skip_of_no_tag h,
   weather_of_optional_lines_absent⟩

set_option maxRecDepth 40000 in
/-- Witness for C6 at the concrete document `vogoReport`, which has
neither a `Sky conditions:` nor a `Weather:` line. -/
theorem C6_witness :
    parse_weather vogoReport =
      some (S ("\nob: VOGO 301230Z 34006KT 6000 NSC 29/22 Q1010 NOSIG\ncycle: 12"),
        { station := none,
          weather_time := { year := 2023, month := 12, day := 30, time := S ("1230 UTC") },
          wind := { cardinal := S ("NNW"), azimuth := F64V.num (qn 340),
                    mph := F64V.num (qn 7), knots := F64V.num (qn 6) },
          visibility := S ("3 mile(s):0"),
          sky_condition := none, weather := none,
          temperature := { celsius := F64V.num (qn 29), fahrenheit := F64V.num (qn 84) },
          dewpoint := { celsius := F64V.num (qn 22), fahrenheit := F64V.num (qn 71) },
          relative_humidity := F64V.num (qn 65),
          pressure := 1010 }) :=
  C6_optional_sections.2.2 vogoReport
    (S ("Temperature: 84 F (29 C)\nDew Point: 71 F (22 C)\nRelative Humidity: 65%\nPressure (altimeter): 29.83 in. Hg (1010 hPa)\nob: VOGO 301230Z 34006KT 6000 NSC 29/22 Q1010 NOSIG\ncycle: 12"))
    none { year := 2023, month := 12, day := 30, time := S ("1230 UTC") }
    { cardinal := S ("NNW"), azimuth := F64V.num (qn 340), mph := F64V.num (qn 7), knots := F64V.num (qn 6) }
    (S ("3 mile(s):0"))
    (S ("\nob: VOGO 301230Z 34006KT 6000 NSC 29/22 Q1010 NOSIG\ncycle: 12"))
    { celsius := F64V.num (qn 29), fahrenheit := F64V.num (qn 84) }
    { celsius := F64V.num (qn 22), fahrenheit := F64V.num (qn 71) }
    (F64V.num (qn 65)) 1010
    rfl (by decide) (by decide) rfl

/-! ## Every parser returns a suffix of its input -/

theorem suffixStable_ppure {α : Type} (a : α) : suffixStable (ppure a) := by
  intro i r b h
  cases h
  exact List.suffix_refl i

theorem suffixStable_pbind {α β : Type} {p : P α} {f : α → P β}
    (hp : suffixStable p) (hf : ∀ a, suffixStable (f a)) : suffixStable (pbind p f) := by
  intro i r b h
  rw [pbind_eq_some] at h
  obtain ⟨i2, a, h1, h2⟩ := h
  exact (hf a i2 r b h2).trans (hp i i2 a h1)

theorem suffixStable_tag (t : Str) : suffixStable (tag t) := by
  intro i r a h
  unfold tag at h
  split at h
  · cases h
    exact List.drop_suffix _ _
  · exact Option.noConfusion h

theorem suffixStable_tagNoCase (t : Str) : suffixStable (tagNoCase t) := by
  intro i r a h
  unfold tagNoCase at h
  split at h
  · cases h
    exact List.drop_suffix _ _
  · exact Option.noConfusion h

theorem suffixStable_takeTill (p : Char → Bool) : suffixStable (takeTill p) := by
  intro i r a h
  unfold takeTill at h
  cases h
  exact List.dropWhile_suffix _

theorem suffixStable_pchar (c : Char) : suffixStable (pchar c) := by
  intro i r a h
  cases i with
  | nil => exact Option.noConfusion h
  | cons x xs =>
    simp only [pchar] at h
    by_cases hx : x = c
    · rw [if_pos hx] at h
      cases h
      exact List.suffix_cons _ _
    · rw [if_neg hx] at h
      exact Option.noConfusion h

theorem suffixStable_newline : suffixStable newline := suffixStable_pchar '\n'

theorem suffixStable_space1 : suffixStable space1 := by
  intro i r a h
  simp only [space1] at h
  split at h
  · exact Option.noConfusion h
  · cases h
    exact List.dropWhile_suffix _

theorem suffixStable_spaces : suffixStable spaces := suffixStable_space1

theorem suffixStable_popt {α : Type} {p : P α} (hp : suffixStable p) :
    suffixStable (popt p) := by
  intro i r a h
  cases hq : p i with
  | none =>
    simp only [popt, hq, Option.some.injEq, Prod.mk.injEq] at h
    obtain ⟨h1, h2⟩ := h
    subst h1
    exact List.suffix_refl i
  | some x =>
    cases x with
    | mk i2 b =>
      simp only [popt, hq, Option.some.injEq, Prod.mk.injEq] at h
      obtain ⟨h1, h2⟩ := h
      subst h1
      exact hp i i2 b hq

theorem suffixStable_alt2 {α : Type} {p q : P α}
    (hp : suffixStable p) (hq : suffixStable q) : suffixStable (alt2 p q) := by
  intro i r a h
  unfold alt2 at h
  cases hc : p i with
  | none =>
    rw [hc] at h
    exact hq i r a h
  | some x =>
    rw [hc] at h
    cases h
    exact hp i r a hc

theorem suffixStable_alt3 {α : Type} {p q s : P α}
    (hp : suffixStable p) (hq : suffixStable q) (hs : suffixStable s) :
    suffixStable (alt3 p q s) := by
  intro i r a h
  unfold alt3 at h
  cases hc : p i with
  | none =>
    rw [hc] at h
    exact suffixStable_alt2 hq hs i r a h
  | some x =>
    rw [hc] at h
    cases h
    exact hp i r a hc

theorem suffixStable_mapRes {α β : Type} {p : P α} {f : α → Option β}
    (hp : suffixStable p) : suffixStable (mapRes p f) := by
  intro i r b h
  cases hq : p i with
  | none =>
    simp only [mapRes, hq] at h
    exact Option.noConfusion h
  | some x =>
    cases x with
    | mk i2 a =>
      cases hf : f a with
      | none =>
        simp only [mapRes, hq, hf] at h
        exact Option.noConfusion h
      | some c =>
        simp only [mapRes, hq, hf, Option.some.injEq, Prod.mk.injEq] at h
        obtain ⟨h1, h2⟩ := h
        subst h1
        exact hp i i2 a hq

theorem suffixStable_many0TagFuel (t : Str) : ∀ n, suffixStable (many0TagFuel t n) := by
  intro n
  induction n with
  | zero =>
    intro i r a h
    cases h
    exact List.suffix_refl i
  | succ n ih =>
    intro i r a h
    cases hc : tag t i with
    | none =>
      simp only [many0TagFuel, hc, Option.some.injEq, Prod.mk.injEq] at h
      obtain ⟨h1, h2⟩ := h
      subst h1
      exact List.suffix_refl i
    | some x =>
      cases x with
      | mk i2 m =>
        cases hr : many0TagFuel t n i2 with
        | none =>
          simp only [many0TagFuel, hc, hr, Option.some.injEq, Prod.mk.injEq] at h
          obtain ⟨h1, h2⟩ := h
          subst h1
          exact suffixStable_tag t i i2 m hc
        | some y =>
          cases y with
          | mk i3 ms =>
            simp only [many0TagFuel, hc, hr, Option.some.injEq, Prod.mk.injEq] at h
            obtain ⟨h1, h2⟩ := h
            subst h1
            exact (ih i2 i3 ms hr).trans (suffixStable_tag t i i2 m hc)

theorem suffixStable_many0Tag (t : Str) : suffixStable (many0Tag t) := by
  intro i r a h
  exact suffixStable_many0TagFuel t (i.length + 1) i r a h

theorem suffixStable_many1Tag (t : Str) : suffixStable (many1Tag t) :=
  suffixStable_pbind (suffixStable_tag t) fun _ =>
    suffixStable_pbind (suffixStable_many0Tag t) fun _ => suffixStable_ppure _

theorem suffixStable_parse_station : suffixStable parse_station := by
  intro i r a h
  cases hc : alt2 (tagNoCase (S ("Station name not available")))
      (takeTill (fun c => c = '\n')) i with
  | none =>
    simp only [parse_station, hc] at h
    exact Option.noConfusion h
  | some x =>
    cases x with
    | mk input output =>
      have hsuf : input <:+ i :=
        suffixStable_alt2 (suffixStable_tagNoCase _) (suffixStable_takeTill _) i input output hc
      cases ht : Station.tryFrom output with
      | ok stat =>
        simp only [parse_station, hc, ht, Option.some.injEq, Prod.mk.injEq] at h
        obtain ⟨h1, h2⟩ := h
        subst h1
        exact hsuf
      | error e =>
        simp only [parse_station, hc, ht, Option.some.injEq, Prod.mk.injEq] at h
        obtain ⟨h1, h2⟩ := h
        subst h1
        exact hsuf

theorem suffixStable_parse_time_tail : suffixStable parse_time_tail := by
  unfold parse_time_tail
  refine suffixStable_pbind (suffixStable_pchar _) fun _ => ?_
  refine suffixStable_pbind (suffixStable_mapRes (suffixStable_takeTill _)) fun _ => ?_
  refine suffixStable_pbind (suffixStable_pchar _) fun _ => ?_
  refine suffixStable_pbind (suffixStable_mapRes (suffixStable_takeTill _)) fun _ => ?_
  refine suffixStable_pbind (suffixStable_pchar _) fun _ => ?_
  refine suffixStable_pbind (suffixStable_mapRes (suffixStable_takeTill _)) fun _ => ?_
  refine suffixStable_pbind (suffixStable_pchar _) fun _ => ?_
  refine suffixStable_pbind (suffixStable_takeTill _) fun _ => ?_
  exact suffixStable_ppure _

theorem suffixStable_parse_time : suffixStable parse_time := by
  unfold parse_time
  refine suffixStable_pbind (suffixStable_takeTill _) fun _ => ?_
  refine suffixStable_pbind (suffixStable_pchar _) fun _ => ?_
  exact suffixStable_parse_time_tail

theorem suffixStable_calmBranch : suffixStable calmBranch := by
  unfold calmBranch
  exact suffixStable_pbind (suffixStable_many1Tag _) fun _ => suffixStable_ppure _

theorem suffixStable_windFromBranch : suffixStable windFromBranch := by
  unfold windFromBranch
  refine suffixStable_pbind (suffixStable_tag _) fun _ => ?_
  refine suffixStable_pbind (suffixStable_takeTill _) fun _ => ?_
  refine suffixStable_pbind suffixStable_spaces fun _ => ?_
  refine suffixStable_pbind (suffixStable_pchar _) fun _ => ?_
  refine suffixStable_pbind (suffixStable_mapRes (suffixStable_takeTill _)) fun _ => ?_
  refine suffixStable_pbind (suffixStable_tag _) fun _ => ?_
  refine suffixStable_pbind (suffixStable_mapRes (suffixStable_takeTill _)) fun _ => ?_
  refine suffixStable_pbind (suffixStable_tag _) fun _ => ?_
  refine suffixStable_pbind (suffixStable_mapRes (suffixStable_takeTill _)) fun _ => ?_
  refine suffixStable_pbind (suffixStable_takeTill _) fun _ => ?_
  exact suffixStable_ppure _

theorem suffixStable_windVarBranch : suffixStable windVarBranch := by
  unfold windVarBranch
  refine suffixStable_pbind (suffixStable_tag _) fun _ => ?_
  refine suffixStable_pbind (suffixStable_mapRes (suffixStable_takeTill _)) fun _ => ?_
  refine suffixStable_pbind (suffixStable_tag _) fun _ => ?_
  refine suffixStable_pbind (suffixStable_mapRes (suffixStable_takeTill _)) fun _ => ?_
  refine suffixStable_pbind (suffixStable_takeTill _) fun _ => ?_
  exact suffixStable_ppure _

theorem suffixStable_parse_windinfo : suffixStable parse_windinfo := by
  unfold parse_windinfo
  exact suffixStable_alt3 suffixStable_calmBranch suffixStable_windFromBranch
    suffixStable_windVarBranch

theorem suffixStable_parse_sky_condition : suffixStable parse_sky_condition := by
  unfold parse_sky_condition
  refine suffixStable_pbind (suffixStable_popt (suffixStable_tag _)) fun a => ?_
  cases a with
  | none => exact suffixStable_ppure _
  | some x =>
    rw [if_pos (show (some x).isSome = true from rfl)]
    exact suffixStable_pbind (suffixStable_takeTill _) fun _ =>
      suffixStable_pbind suffixStable_newline fun _ => suffixStable_ppure _

theorem suffixStable_parse_weather_str : suffixStable parse_weather_str := by
  unfold parse_weather_str
  refine suffixStable_pbind (suffixStable_many0Tag _) fun k => ?_
  cases hk : k.isEmpty with
  | true =>
    rw [if_pos rfl]
    exact suffixStable_ppure _
  | false =>
    rw [if_neg (by simp)]
    exact suffixStable_pbind (suffixStable_takeTill _) fun _ =>
      suffixStable_pbind suffixStable_newline fun _ => suffixStable_ppure _

theorem suffixStable_parse_temperature : suffixStable parse_temperature := by
  unfold parse_temperature
  refine suffixStable_pbind suffixStable_spaces fun _ => ?_
  refine suffixStable_pbind (suffixStable_mapRes (suffixStable_takeTill _)) fun _ => ?_
  refine suffixStable_pbind (suffixStable_tag _) fun _ => ?_
  refine suffixStable_pbind (suffixStable_mapRes (suffixStable_takeTill _)) fun _ => ?_
  refine suffixStable_pbind (suffixStable_takeTill _) fun _ => ?_
  exact suffixStable_ppure _

theorem suffixStable_parse_relative_humidity : suffixStable parse_relative_humidity := by
  unfold parse_relative_humidity
  refine suffixStable_pbind (suffixStable_tag _) fun _ => ?_
  refine suffixStable_pbind (suffixStable_mapRes (suffixStable_takeTill _)) fun _ => ?_
  refine suffixStable_pbind (suffixStable_pchar _) fun _ => ?_
  refine suffixStable_pbind suffixStable_newline fun _ => ?_
  exact suffixStable_ppure _

theorem suffixStable_parse_pressure : suffixStable parse_pressure := by
  unfold parse_pressure
  refine suffixStable_pbind (suffixStable_tag _) fun _ => ?_
  refine suffixStable_pbind (suffixStable_takeTill _) fun _ => ?_
  refine suffixStable_pbind (suffixStable_pchar _) fun _ => ?_
  refine suffixStable_pbind (suffixStable_mapRes (suffixStable_takeTill _)) fun _ => ?_
  refine suffixStable_pbind (suffixStable_takeTill _) fun _ => ?_
  exact suffixStable_ppure _

theorem suffixStable_parse_weather : suffixStable parse_weather := by
  unfold parse_weather
  refine suffixStable_pbind suffixStable_parse_station fun _ => ?_
  refine suffixStable_pbind suffixStable_newline fun _ => ?_
  refine suffixStable_pbind suffixStable_parse_time fun _ => ?_
  refine suffixStable_pbind suffixStable_newline fun _ => ?_
  refine suffixStable_pbind suffixStable_parse_windinfo fun _ => ?_
  refine suffixStable_pbind suffixStable_newline fun _ => ?_
  refine suffixStable_pbind (suffixStable_tag _) fun _ => ?_
  refine suffixStable_pbind (suffixStable_takeTill _) fun _ => ?_
  refine suffixStable_pbind suffixStable_newline fun _ => ?_
  refine suffixStable_pbind suffixStable_parse_sky_condition fun _ => ?_
  refine suffixStable_pbind suffixStable_parse_weather_str fun _ => ?_
  refine suffixStable_pbind (suffixStable_tag _) fun _ => ?_
  refine suffixStable_pbind suffixStable_parse_temperature fun _ => ?_
  refine suffixStable_pbind suffixStable_newline fun _ => ?_
  refine suffixStable_pbind (suffixStable_tag _) fun _ => ?_
  refine suffixStable_pbind suffixStable_parse_temperature fun _ => ?_
  refine suffixStable_pbind suffixStable_newline fun _ => ?_
  refine suffixStable_pbind suffixStable_parse_relative_humidity fun _ => ?_
  refine suffixStable_pbind suffixStable_parse_pressure fun _ => ?_
  exact suffixStable_ppure _

/-! ## C3: the remainder is the untouched suffix of the input -/

set_option maxRecDepth 40000 in
/-- C3: whenever `parse_weather` succeeds, the returned remainder is a
suffix of the input, byte for byte unchanged; and success does not
require the remainder to be empty — the VOBL report followed by
`"\nextra"` parses successfully and returns exactly that trailing text. -/
theorem C3_remainder_is_suffix :
    (∀ (i r : Str) (w : WeatherInfo), parse_weather i = some (r, w) → r <:+ i)
    ∧ parse_weather voblReport = some (S ("\nextra"), voblInfo)
    ∧ S ("\nextra") ≠ ([] : Str) := by
  refine ⟨fun i r w h => suffixStable_parse_weather i r w h, ?_, by decide⟩
  rfl

/-- Witness for C3: the theorem applied to the concrete VOBL report and
its concrete remainder `"\nextra"`. -/
theorem C3_witness : (S ("\nextra")) <:+ voblReport :=
  C3_remainder_is_suffix.1 voblReport (S ("\nextra")) voblInfo C3_remainder_is_suffix.2.1

/-! ## Remaining witnesses -/

set_option maxRecDepth 40000 in
/-- Witness for C2 at the Qingdao header of the repository's test suite. -/
theorem C2_witness :
    parse_station (S ("Qingdao, China (ZSQD) 36-04N 120-20E 77M") ++ '\n' :: []) =
      some ('\n' :: [], some { place := S ("Qingdao"), country := S ("China") }) := by
  have h := C2_station_split (S ("Qingdao, China (ZSQD) 36-04N 120-20E 77M")) []
    (by decide) (by decide) (by decide)
  exact h.trans (by decide)

/-- Witness for C7 at an all-uppercase spelling of the sentinel header. -/
theorem C7_witness :
    parse_station (S ("STATION NAME NOT AVAILABLE") ++ S ("\nrest"))
      = some (S ("\nrest"), none) :=
  C7_station_unavailable (S ("STATION NAME NOT AVAILABLE")) (S ("\nrest")) (by decide)

set_option maxRecDepth 40000 in
/-- Witness for C8 at the two-comma Yakima header of the test suite. -/
theorem C8_witness :
    Station.tryFrom yakimaLine = Except.error (S ("Failure parsing ") ++ yakimaLine)
    ∧ (parse_station (yakimaLine ++ '\n' :: S ("Dec 30, 2023"))).map (fun p => p.2)
        = some none :=
  C8_two_commas_station_none yakimaLine (S ("Dec 30, 2023")) (by decide) (by decide)

/-- Witness for C9 on an input that contains no `'/'` at all. -/
theorem C9_witness : parse_time (S ("a line with no slash at all")) = none :=
  C9_time_slash_scan.1 (S ("a line with no slash at all")) (by decide)
